import Mathlib

/-!
Verification of the n8n-parallels webhook fan-out service.

The development shallowly embeds the Go sources:
  internal/models/models.go   — the data model (requests, tasks, results, summary)
  internal/service/service.go — ExecuteParallel / executeTasksParallel / executeTask
  internal/handler/parallel.go — the boundary Execute handler (timeout default and
                                  validation)

External effects (JSON marshalling, HTTP request construction, the outbound
call, reading the response body, the wall clock) are modelled by a per-task
oracle, `TaskEnv`, that records the outcome the runtime would deliver; the
nondeterministic completion order of the goroutines is modelled by an explicit
`order : List Nat` over which theorems quantify (constrained to be a
permutation of the task indices where the code guarantees it).
-/

namespace NParallels

/-- JSON-like value, standing in for Go's `interface{}` inside a decoded
payload. Only its shape matters to the core: the service never inspects
payload contents, it hands them to the (external) serializer. -/
inductive JsonValue where
  | null : JsonValue
  | bool (b : Bool) : JsonValue
  | num (n : Int) : JsonValue
  | str (s : String) : JsonValue
  | arr (xs : List JsonValue) : JsonValue
  | obj (fields : List (String × JsonValue)) : JsonValue

/-- One request payload: Go's `map[string]interface{}`. -/
def Payload : Type := List (String × JsonValue)

/-- `models.ParallelExecuteRequest`: webhook_url, auth_header, payloads,
timeout (Go `int`, decoded from JSON, may be any integer before validation). -/
structure ParallelExecuteRequest where
  webhookURL : String
  authHeader : String
  payloads : List Payload
  timeout : Int

/-- `models.WebhookExecutionTask`. -/
structure WebhookExecutionTask where
  index : Nat
  webhookURL : String
  authHeader : String
  payload : Payload
  timeoutSec : Int

/-- `models.WebhookExecutionResult`. `response` models `json.RawMessage`
(raw bytes as a string, `none` = Go `nil`); `error` models the Go `error`
interface value as the text `err.Error()` would produce (`none` = `nil`). -/
structure WebhookExecutionResult where
  index : Nat
  success : Bool
  response : Option String
  error : Option String
  duration : Int
  isTimeout : Bool

/-- The Go zero value of `WebhookExecutionResult`, as produced by
`make([]models.WebhookExecutionResult, n)`. -/
def zeroExecutionResult : WebhookExecutionResult :=
  { index := 0, success := false, response := none, error := none,
    duration := 0, isTimeout := false }

/-- `models.WebhookResult` (the per-payload entry of the response).
In Go `Error` is a plain string whose zero value is `""` and `Response` is a
`json.RawMessage` whose zero value is `nil` (here `none`). -/
structure WebhookResult where
  index : Nat
  success : Bool
  response : Option String
  error : String
  duration : Int

/-- The Go zero value of `models.WebhookResult`. -/
def zeroWebhookResult : WebhookResult :=
  { index := 0, success := false, response := none, error := "", duration := 0 }

/-- `models.ExecutionSummary`. Counters are Go `int`s that only ever grow by
one per task, so `Nat` is faithful; the duration is wall-clock milliseconds. -/
structure ExecutionSummary where
  totalRequests : Nat
  successfulRequests : Nat
  failedRequests : Nat
  timeoutRequests : Nat
  totalDuration : Int

/-- `models.ParallelExecuteResponse`. -/
structure ParallelExecuteResponse where
  results : List WebhookResult
  summary : ExecutionSummary

/-- Outcome of the outbound interaction for one task, as the runtime delivers
it to `executeTask` after `ws.client.Do(req)`:
  * `doError e dl` — `client.Do` returned error text `e`; `dl` records
    whether `taskCtx.Err() == context.DeadlineExceeded` held at that point;
  * `bodyReadError status e` — `client.Do` returned a response with the given
    status but reading its body failed with error text `e`;
  * `gotResponse status body` — the response arrived and its body was read
    in full. -/
inductive OutboundOutcome where
  | doError (errText : String) (ctxDeadlineExceeded : Bool) : OutboundOutcome
  | bodyReadError (status : Nat) (errText : String) : OutboundOutcome
  | gotResponse (status : Nat) (body : String) : OutboundOutcome

/-- Oracle for the external effects of one task execution:
  * `marshal` — outcome of `json.Marshal(task.Payload)` (error text, or the
    serialized bytes);
  * `mkRequest` — outcome of `http.NewRequestWithContext`;
  * `outbound` — outcome of the outbound call and body read;
  * `elapsedMs` — the wall-clock reading `time.Since(startTime).Milliseconds()`
    recorded at the exit point taken. -/
structure TaskEnv where
  marshal : Except String String
  mkRequest : Except String Unit
  outbound : OutboundOutcome
  elapsedMs : Int

/-- `req.Header.Set(k, v)` on a header map modelled as an association list:
replaces any existing entry for the key, then adds the new one. -/
def setHeader (hs : List (String × String)) (k v : String) : List (String × String) :=
  (hs.filter (fun p => p.1 != k)) ++ [(k, v)]

/-- Reading a header value back: `none` when the header is absent. -/
def getHeader (hs : List (String × String)) (k : String) : Option String :=
  (hs.find? (fun p => p.1 == k)).map Prod.snd

/-- The outbound request headers built by `executeTask` (service.go lines
447-450): always `Content-Type: application/json`; `Authorization` is set
only when `task.AuthHeader != ""`. -/
def taskRequestHeaders (task : WebhookExecutionTask) : List (String × String) :=
  let h := setHeader [] "Content-Type" "application/json"
  if task.authHeader != "" then setHeader h "Authorization" task.authHeader else h

/-- `WebhookService.executeTask` (service.go lines 419-498), with the external
effects read from `env`. Mirrors the Go control flow: marshal failure, then
request-construction failure, then `client.Do` failure (timeout-classified by
the task context's error), then body-read failure, then the 2xx status check. -/
def executeTask (task : WebhookExecutionTask) (env : TaskEnv) : WebhookExecutionResult :=
  match env.marshal with
  | Except.error e =>
      { zeroExecutionResult with
        index := task.index,
        error := some ("failed to marshal payload: " ++ e),
        duration := env.elapsedMs }
  | Except.ok _ =>
    match env.mkRequest with
    | Except.error e =>
        { zeroExecutionResult with
          index := task.index,
          error := some ("failed to create request: " ++ e),
          duration := env.elapsedMs }
    | Except.ok _ =>
      match env.outbound with
      | OutboundOutcome.doError e dl =>
          if dl then
            { zeroExecutionResult with
              index := task.index,
              isTimeout := true,
              error := some ("request timeout after " ++ toString task.timeoutSec ++ " seconds"),
              duration := env.elapsedMs }
          else
            { zeroExecutionResult with
              index := task.index,
              error := some ("request failed: " ++ e),
              duration := env.elapsedMs }
      | OutboundOutcome.bodyReadError _ e =>
          { zeroExecutionResult with
            index := task.index,
            error := some ("failed to read response body: " ++ e),
            duration := env.elapsedMs }
      | OutboundOutcome.gotResponse status body =>
          if 200 ≤ status ∧ status < 300 then
            { zeroExecutionResult with
              index := task.index,
              success := true, response := some body,
              duration := env.elapsedMs }
          else
            { zeroExecutionResult with
              index := task.index,
              error := some ("webhook returned status " ++ toString status ++ ": " ++ body),
              duration := env.elapsedMs }

/-- The task built for payload `i` in `ExecuteParallel` (service.go lines
319-328). -/
def mkTask (req : ParallelExecuteRequest) (i : Nat) (p : Payload) : WebhookExecutionTask :=
  { index := i, webhookURL := req.webhookURL, authHeader := req.authHeader,
    payload := p, timeoutSec := req.timeout }

/-- The task slice built by the loop in `ExecuteParallel`. -/
def buildTasks (req : ParallelExecuteRequest) : List WebhookExecutionTask :=
  req.payloads.mapIdx (mkTask req)

/-- Placeholder task for out-of-range lookups; never reached when `order`
enumerates the true task indices. -/
def dummyTask : WebhookExecutionTask :=
  { index := 0, webhookURL := "", authHeader := "", payload := [], timeoutSec := 0 }

/-- `WebhookService.executeTasksParallel` (service.go lines 385-416): each
task runs concurrently and sends its `executeTask` result on a channel; the
collector stores results in arrival order. `order` lists the task indices in
completion order, so the returned list is the channel contents in the order
received. -/
def executeTasksParallel (tasks : List WebhookExecutionTask) (env : Nat → TaskEnv)
    (order : List Nat) : List WebhookExecutionResult :=
  order.map (fun j => executeTask (tasks.getD j dummyTask) (env j))

/-- The reordering loop of `ExecuteParallel` (service.go lines 334-337):
`sortedResults[result.Index] = result` over a freshly made slice of length
`n`. -/
def scatterByIndex (n : Nat) (rs : List WebhookExecutionResult) :
    List WebhookExecutionResult :=
  rs.foldl (fun acc r => acc.set r.index r) (List.replicate n zeroExecutionResult)

/-- The body of the conversion loop of `ExecuteParallel` (service.go lines
346-369), restricted to the per-entry `WebhookResult` it builds: index and
duration are copied, the response is kept only on success, and on failure the
error string is `"timeout"` for a timed-out task, the recorded error's text
otherwise, or `"unknown error"` when no error was recorded. -/
def toWebhookResult (i : Nat) (r : WebhookExecutionResult) : WebhookResult :=
  { index := i, success := r.success, duration := r.duration,
    response := if r.success then r.response else none,
    error :=
      if r.success then ""
      else if r.isTimeout then "timeout"
      else
        match r.error with
        | some e => e
        | none => "unknown error" }

/-- The summary-counter updates of the same loop: a success increments the
success counter; any failure increments the failed counter, and a timed-out
failure additionally increments the timeout counter. -/
def summaryStep (s : ExecutionSummary) (r : WebhookExecutionResult) : ExecutionSummary :=
  if r.success then
    { s with successfulRequests := s.successfulRequests + 1 }
  else if r.isTimeout then
    { s with
      timeoutRequests := s.timeoutRequests + 1,
      failedRequests := s.failedRequests + 1 }
  else
    { s with failedRequests := s.failedRequests + 1 }

/-- `WebhookService.ExecuteParallel` (service.go lines 309-382): build one
task per payload, run them concurrently (completion order `order`), scatter
the results into their slots by index, then convert each slot and accumulate
the summary. `batchDurationMs` is the wall-clock batch duration reading. -/
def ExecuteParallel (req : ParallelExecuteRequest) (env : Nat → TaskEnv)
    (order : List Nat) (batchDurationMs : Int) : ParallelExecuteResponse :=
  let n := req.payloads.length
  let results := executeTasksParallel (buildTasks req) env order
  let sorted := scatterByIndex n results
  { results := sorted.mapIdx toWebhookResult,
    summary := sorted.foldl summaryStep
      { totalRequests := n, successfulRequests := 0, failedRequests := 0,
        timeoutRequests := 0, totalDuration := batchDurationMs } }

/-- The timeout defaulting step of `ParallelHandler.Execute` (parallel.go
lines 51-54): an unset/zero timeout becomes 60 seconds. -/
def applyDefaultTimeout (req : ParallelExecuteRequest) : ParallelExecuteRequest :=
  if req.timeout = 0 then { req with timeout := 60 } else req

/-- The `validator.Struct` check on `ParallelExecuteRequest` (models.go lines
6-11): `webhook_url` is `required,url` (the url-syntax check is performed by
the external validator library, passed in as `urlOk`), `payloads` is
`required,min=1`, and `timeout` is `min=1,max=3600`. -/
def validateStruct (urlOk : Bool) (req : ParallelExecuteRequest) : Bool :=
  (decide (req.webhookURL ≠ "") && urlOk) &&
  decide (1 ≤ req.payloads.length) &&
  (decide ((1 : Int) ≤ req.timeout) && decide (req.timeout ≤ 3600))

/-- The request-processing pipeline of `ParallelHandler.Execute` (parallel.go
lines 51-67) after JSON decoding: default the timeout, validate the struct
(rejecting with a 400 validation error), re-check non-empty payloads, and
otherwise pass the request on to the core. -/
def handlerExecute (urlOk : Bool) (req0 : ParallelExecuteRequest) :
    Except (Nat × String) ParallelExecuteRequest :=
  let req := applyDefaultTimeout req0
  if validateStruct urlOk req = false then
    Except.error (400, "validation failed")
  else if req.payloads.length = 0 then
    Except.error (400, "validation failed")
  else
    Except.ok req

/-! ### Concrete fixtures used by the witness theorems -/

/-- Effect oracle for a task whose call returns 200 with body `okbody`. -/
def sampleEnvOk : TaskEnv :=
  { marshal := Except.ok "pb", mkRequest := Except.ok (),
    outbound := OutboundOutcome.gotResponse 200 "okbody", elapsedMs := 7 }

/-- Effect oracle for a task whose call fails with the task deadline
exceeded. -/
def sampleEnvTimeout : TaskEnv :=
  { marshal := Except.ok "pb", mkRequest := Except.ok (),
    outbound := OutboundOutcome.doError "context deadline exceeded" true,
    elapsedMs := 9 }

/-- Effect oracle for a task whose call returns 404 with body `not found`. -/
def sampleEnv404 : TaskEnv :=
  { marshal := Except.ok "pb", mkRequest := Except.ok (),
    outbound := OutboundOutcome.gotResponse 404 "not found", elapsedMs := 4 }

/-- Effect oracle for a task whose call returns 200 but whose body read
fails. -/
def sampleEnvReadFail : TaskEnv :=
  { marshal := Except.ok "pb", mkRequest := Except.ok (),
    outbound := OutboundOutcome.bodyReadError 200 "unexpected EOF",
    elapsedMs := 3 }

/-- A two-payload request. -/
def sampleReq : ParallelExecuteRequest :=
  { webhookURL := "http://example.com/webhook", authHeader := "Bearer tok",
    payloads := [([] : Payload), ([] : Payload)], timeout := 60 }

/-- Task 0 succeeds, task 1 times out. -/
def sampleEnvs : Nat → TaskEnv :=
  fun j => if j = 0 then sampleEnvOk else sampleEnvTimeout

/-- A request with no payloads. -/
def emptyReq : ParallelExecuteRequest :=
  { webhookURL := "http://example.com/webhook", authHeader := "",
    payloads := [], timeout := 60 }

/-- A well-formed request whose timeout was left unset (zero). -/
def unsetTimeoutReq : ParallelExecuteRequest :=
  { webhookURL := "http://example.com/webhook", authHeader := "",
    payloads := [([] : Payload)], timeout := 0 }

/-- `unsetTimeoutReq` after the boundary defaulted its timeout. -/
def defaultedTimeoutReq : ParallelExecuteRequest :=
  { unsetTimeoutReq with timeout := 60 }

/-- A well-formed request whose timeout exceeds the allowed maximum. -/
def oversizedTimeoutReq : ParallelExecuteRequest :=
  { webhookURL := "http://example.com/webhook", authHeader := "",
    payloads := [([] : Payload)], timeout := 3601 }

/-! ### Helper lemmas about the scatter loop and the summary fold -/

/-- Writing results into their slots never changes the buffer length. -/
theorem length_foldl_set (rs : List WebhookExecutionResult)
    (acc : List WebhookExecutionResult) :
    (rs.foldl (fun a r => a.set r.index r) acc).length = acc.length := by
  induction rs generalizing acc with
  | nil => rfl
  | cons r rs ih => rw [List.foldl_cons, ih, List.length_set]

/-- A slot no written result targets keeps its previous content. -/
theorem getElem?_foldl_set_of_forall_ne (rs : List WebhookExecutionResult)
    (acc : List WebhookExecutionResult) (i : Nat)
    (h : ∀ r ∈ rs, r.index ≠ i) :
    (rs.foldl (fun a r => a.set r.index r) acc)[i]? = acc[i]? := by
  induction rs generalizing acc with
  | nil => rfl
  | cons r rs ih =>
      rw [List.foldl_cons, ih _ (fun r' hr' => h r' (List.mem_cons_of_mem _ hr'))]
      exact List.getElem?_set_ne (h r (List.mem_cons_self r rs))

/-- `executeTask` copies the task's index into its result on every path. -/
theorem executeTask_index (task : WebhookExecutionTask) (env : TaskEnv) :
    (executeTask task env).index = task.index := by
  unfold executeTask
  split
  · rfl
  · split
    · rfl
    · split
      · split <;> rfl
      · rfl
      · split <;> rfl

/-- Reading the built task slice at a position. -/
theorem buildTasks_getElem? (req : ParallelExecuteRequest) (j : Nat) :
    (buildTasks req)[j]? = (req.payloads[j]?).map (mkTask req j) := by
  simp [buildTasks, List.mapIdx_eq_enum_map, List.getElem?_enum,
    Option.map_map, Function.comp_def, Function.uncurry]

/-- In range, the task slice holds exactly the task built for that payload. -/
theorem buildTasks_getD (req : ParallelExecuteRequest) (j : Nat)
    (hj : j < req.payloads.length) :
    (buildTasks req).getD j dummyTask
      = mkTask req j (req.payloads.getD j ([] : Payload)) := by
  rw [List.getD_eq_getElem?_getD, List.getD_eq_getElem?_getD, buildTasks_getElem?]
  cases hp : req.payloads[j]? with
  | none => exact absurd (List.getElem?_eq_none_iff.mp hp) (Nat.not_le.mpr hj)
  | some p => simp

/-- Core reordering fact: when the completion order is a permutation of the
task indices and each result carries its own index, the scatter loop leaves
the result for task `i` in slot `i`, whatever the completion order was. -/
theorem getElem?_scatter_of_perm (n : Nat) (g : Nat → WebhookExecutionResult)
    (hg : ∀ j, j < n → (g j).index = j) (order : List Nat)
    (hperm : order.Perm (List.range n)) (i : Nat) (hi : i < n) :
    (scatterByIndex n (order.map g))[i]? = some (g i) := by
  have hmem : i ∈ order := hperm.mem_iff.mpr (List.mem_range.mpr hi)
  obtain ⟨l₁, l₂, rfl⟩ := List.append_of_mem hmem
  have hnodup : (l₁ ++ i :: l₂).Nodup := hperm.nodup_iff.mpr (List.nodup_range n)
  have hil₂ : i ∉ l₂ := (List.nodup_cons.mp hnodup.of_append_right).1
  have hmemn : ∀ j ∈ l₂, j < n := by
    intro j hj
    exact List.mem_range.mp (hperm.mem_iff.mp (by simp [hj]))
  have h₂ : ∀ r ∈ l₂.map g, r.index ≠ i := by
    intro r hr
    obtain ⟨j, hj, rfl⟩ := List.mem_map.mp hr
    rw [hg j (hmemn j hj)]
    exact fun hji => hil₂ (hji ▸ hj)
  unfold scatterByIndex
  rw [List.map_append, List.map_cons, List.foldl_append, List.foldl_cons,
    getElem?_foldl_set_of_forall_ne _ _ _ h₂, hg i hi]
  exact List.getElem?_set_self (by rw [length_foldl_set, List.length_replicate]; exact hi)

/-- The scatter buffer always has length `n`. -/
theorem scatterByIndex_length (n : Nat) (rs : List WebhookExecutionResult) :
    (scatterByIndex n rs).length = n := by
  unfold scatterByIndex
  rw [length_foldl_set, List.length_replicate]

/-- Reading `mapIdx` at a position. -/
theorem getElem?_mapIdx_toWebhookResult (l : List WebhookExecutionResult) (i : Nat) :
    (l.mapIdx toWebhookResult)[i]? = (l[i]?).map (toWebhookResult i) := by
  simp [List.mapIdx_eq_enum_map, List.getElem?_enum,
    Option.map_map, Function.comp_def, Function.uncurry]

/-- The indices produced by the conversion loop enumerate the positions. -/
theorem mapIdx_toWebhookResult_indices (l : List WebhookExecutionResult) :
    (l.mapIdx toWebhookResult).map WebhookResult.index = List.range l.length := by
  rw [List.mapIdx_eq_enum_map, List.map_map]
  have h : (WebhookResult.index ∘ Function.uncurry toWebhookResult) = Prod.fst := by
    funext p
    cases p
    rfl
  rw [h, List.enum_map_fst]

/-- The response entry at position `i`, for a completion order that is a
permutation of the task indices: it is the converted result of running task
`i` on payload `i`. -/
theorem executeParallel_results_getElem? (req : ParallelExecuteRequest)
    (env : Nat → TaskEnv) (order : List Nat) (dur : Int)
    (hperm : order.Perm (List.range req.payloads.length))
    (i : Nat) (hi : i < req.payloads.length) :
    (ExecuteParallel req env order dur).results[i]? =
      some (toWebhookResult i
        (executeTask (mkTask req i (req.payloads.getD i ([] : Payload))) (env i))) := by
  have hg : ∀ j, j < req.payloads.length →
      (executeTask ((buildTasks req).getD j dummyTask) (env j)).index = j := by
    intro j hj
    rw [executeTask_index, buildTasks_getD req j hj]
    rfl
  have hs := getElem?_scatter_of_perm req.payloads.length
    (fun j => executeTask ((buildTasks req).getD j dummyTask) (env j)) hg order hperm i hi
  show (List.mapIdx toWebhookResult (scatterByIndex req.payloads.length
      (executeTasksParallel (buildTasks req) env order)))[i]? = _
  rw [getElem?_mapIdx_toWebhookResult]
  unfold executeTasksParallel
  rw [hs]
  show some (toWebhookResult i
    (executeTask ((buildTasks req).getD i dummyTask) (env i))) = _
  rw [buildTasks_getD req i hi]

/-- The response always holds one entry per payload. -/
theorem executeParallel_results_length (req : ParallelExecuteRequest)
    (env : Nat → TaskEnv) (order : List Nat) (dur : Int) :
    (ExecuteParallel req env order dur).results.length = req.payloads.length := by
  show (List.mapIdx toWebhookResult (scatterByIndex req.payloads.length
      (executeTasksParallel (buildTasks req) env order))).length = _
  rw [List.length_mapIdx, scatterByIndex_length]

/-- One summary step never touches the total counter. -/
theorem summaryStep_total (s : ExecutionSummary) (r : WebhookExecutionResult) :
    (summaryStep s r).totalRequests = s.totalRequests := by
  unfold summaryStep
  split
  · rfl
  · split <;> rfl

/-- One summary step adds exactly one to `successful + failed`. -/
theorem summaryStep_succ_failed (s : ExecutionSummary) (r : WebhookExecutionResult) :
    (summaryStep s r).successfulRequests + (summaryStep s r).failedRequests
      = s.successfulRequests + s.failedRequests + 1 := by
  unfold summaryStep
  split
  · simp only []
    omega
  · split <;> (simp only []; omega)

/-- One summary step preserves `timeout ≤ failed`. -/
theorem summaryStep_timeout_le (s : ExecutionSummary) (r : WebhookExecutionResult)
    (h : s.timeoutRequests ≤ s.failedRequests) :
    (summaryStep s r).timeoutRequests ≤ (summaryStep s r).failedRequests := by
  unfold summaryStep
  split
  · exact h
  · split <;> (simp only []; omega)

/-- The summary fold never touches the total counter. -/
theorem foldl_summaryStep_total (rs : List WebhookExecutionResult) (s : ExecutionSummary) :
    (rs.foldl summaryStep s).totalRequests = s.totalRequests := by
  induction rs generalizing s with
  | nil => rfl
  | cons r rs ih => rw [List.foldl_cons, ih, summaryStep_total]

/-- The summary fold adds the list length to `successful + failed`. -/
theorem foldl_summaryStep_succ_failed (rs : List WebhookExecutionResult)
    (s : ExecutionSummary) :
    (rs.foldl summaryStep s).successfulRequests + (rs.foldl summaryStep s).failedRequests
      = s.successfulRequests + s.failedRequests + rs.length := by
  induction rs generalizing s with
  | nil => simp
  | cons r rs ih =>
      rw [List.foldl_cons, ih, summaryStep_succ_failed, List.length_cons]
      omega

/-- The summary fold preserves `timeout ≤ failed`. -/
theorem foldl_summaryStep_timeout_le (rs : List WebhookExecutionResult)
    (s : ExecutionSummary) (h : s.timeoutRequests ≤ s.failedRequests) :
    (rs.foldl summaryStep s).timeoutRequests ≤ (rs.foldl summaryStep s).failedRequests := by
  induction rs generalizing s with
  | nil => exact h
  | cons r rs ih => rw [List.foldl_cons]; exact ih _ (summaryStep_timeout_le _ _ h)

/-! ### Claim theorems -/

/-- Claim C2: for every response produced by `ExecuteParallel`, the summary
satisfies `successful_requests + failed_requests = total_requests` and
`timeout_requests ≤ failed_requests` (each timed-out task is counted in both
the timed-out and the failed counter). Holds for every completion order. -/
theorem executeParallel_summary_arithmetic (req : ParallelExecuteRequest)
    (env : Nat → TaskEnv) (order : List Nat) (dur : Int) :
    (ExecuteParallel req env order dur).summary.successfulRequests
        + (ExecuteParallel req env order dur).summary.failedRequests
      = (ExecuteParallel req env order dur).summary.totalRequests ∧
    (ExecuteParallel req env order dur).summary.timeoutRequests
      ≤ (ExecuteParallel req env order dur).summary.failedRequests := by
  show (List.foldl summaryStep _ _).successfulRequests
        + (List.foldl summaryStep _ _).failedRequests
      = (List.foldl summaryStep _ _).totalRequests ∧
    (List.foldl summaryStep _ _).timeoutRequests
      ≤ (List.foldl summaryStep _ _).failedRequests
  constructor
  · rw [foldl_summaryStep_succ_failed, foldl_summaryStep_total, scatterByIndex_length]
    simp
  · exact foldl_summaryStep_timeout_le _ _ (Nat.le_refl 0)

/-- Claim C8: `executeTask` returns exactly one result for every task (it is
a total function of the task and its effect oracle), and no individual task
outcome aborts the batch: for every request, effect oracle, and completion
order — including oracles under which every task fails — `ExecuteParallel`
returns a response with exactly one entry per payload, slot `i` carrying
index `i`, and a summary totalling every task. -/
theorem executeParallel_complete (req : ParallelExecuteRequest)
    (env : Nat → TaskEnv) (order : List Nat) (dur : Int) :
    (ExecuteParallel req env order dur).results.length = req.payloads.length ∧
    (ExecuteParallel req env order dur).results.map WebhookResult.index
      = List.range req.payloads.length ∧
    (ExecuteParallel req env order dur).summary.totalRequests
      = req.payloads.length := by
  refine ⟨executeParallel_results_length req env order dur, ?_, ?_⟩
  · show (List.mapIdx toWebhookResult (scatterByIndex req.payloads.length
        (executeTasksParallel (buildTasks req) env order))).map WebhookResult.index = _
    rw [mapIdx_toWebhookResult_indices, scatterByIndex_length]
  · show (List.foldl summaryStep _ _).totalRequests = _
    rw [foldl_summaryStep_total]

/-- Claim C1: for every request with `n` payloads, the response of
`ExecuteParallel` has exactly `n` results and, for every `i < n`, the entry
at position `i` carries index `i` and is the converted outcome of running
payload `i`'s task — for every completion order of the concurrent tasks
(`order` ranges over all permutations of the task indices). -/
theorem executeParallel_ordered (req : ParallelExecuteRequest) (env : Nat → TaskEnv)
    (order : List Nat) (dur : Int) (i : Nat)
    (hperm : order.Perm (List.range req.payloads.length))
    (hi : i < req.payloads.length) :
    (ExecuteParallel req env order dur).results.length = req.payloads.length ∧
    (ExecuteParallel req env order dur).results[i]? =
      some (toWebhookResult i
        (executeTask (mkTask req i (req.payloads.getD i ([] : Payload))) (env i))) ∧
    ((ExecuteParallel req env order dur).results.getD i zeroWebhookResult).index = i := by
  refine ⟨executeParallel_results_length req env order dur,
    executeParallel_results_getElem? req env order dur hperm i hi, ?_⟩
  rw [List.getD_eq_getElem?_getD,
    executeParallel_results_getElem? req env order dur hperm i hi]
  rfl

/-- Witness for C1: two payloads, completion order `[1, 0]` (reversed), and
the entry at position 1 is still the timed-out outcome of task 1. -/
theorem executeParallel_ordered_witness :
    List.Perm [1, 0] (List.range sampleReq.payloads.length) ∧
    1 < sampleReq.payloads.length ∧
    ((ExecuteParallel sampleReq sampleEnvs [1, 0] 5).results.length
        = sampleReq.payloads.length ∧
     (ExecuteParallel sampleReq sampleEnvs [1, 0] 5).results[1]? =
       some (toWebhookResult 1
         (executeTask (mkTask sampleReq 1 (sampleReq.payloads.getD 1 ([] : Payload)))
           (sampleEnvs 1))) ∧
     ((ExecuteParallel sampleReq sampleEnvs [1, 0] 5).results.getD 1
         zeroWebhookResult).index = 1) :=
  ⟨by decide, by decide,
    executeParallel_ordered sampleReq sampleEnvs [1, 0] 5 1 (by decide) (by decide)⟩

/-- Claim C6: when the payload sequence is empty, `ExecuteParallel` returns
an empty results sequence and a summary whose total, successful, failed and
timed-out counts are all zero. The model is a total function evaluated for
every completion order, so it cannot block or fault. -/
theorem executeParallel_empty (req : ParallelExecuteRequest) (env : Nat → TaskEnv)
    (order : List Nat) (dur : Int) (h : req.payloads = []) :
    (ExecuteParallel req env order dur).results = [] ∧
    (ExecuteParallel req env order dur).summary.totalRequests = 0 ∧
    (ExecuteParallel req env order dur).summary.successfulRequests = 0 ∧
    (ExecuteParallel req env order dur).summary.failedRequests = 0 ∧
    (ExecuteParallel req env order dur).summary.timeoutRequests = 0 := by
  have hlen : req.payloads.length = 0 := by rw [h]; rfl
  have hsc : scatterByIndex req.payloads.length
      (executeTasksParallel (buildTasks req) env order) = [] :=
    List.length_eq_zero.mp (by rw [scatterByIndex_length]; exact hlen)
  have hres : (ExecuteParallel req env order dur).results = [] := by
    show List.mapIdx toWebhookResult (scatterByIndex req.payloads.length
      (executeTasksParallel (buildTasks req) env order)) = []
    rw [hsc]
    rfl
  have hsum : (ExecuteParallel req env order dur).summary =
      { totalRequests := req.payloads.length, successfulRequests := 0,
        failedRequests := 0, timeoutRequests := 0, totalDuration := dur } := by
    show List.foldl summaryStep _ (scatterByIndex req.payloads.length
      (executeTasksParallel (buildTasks req) env order)) = _
    rw [hsc]
    rfl
  rw [hres, hsum]
  exact ⟨rfl, hlen, rfl, rfl, rfl⟩

/-- Witness for C6 at a concrete empty request. -/
theorem executeParallel_empty_witness :
    emptyReq.payloads = [] ∧
    ((ExecuteParallel emptyReq sampleEnvs [] 0).results = [] ∧
     (ExecuteParallel emptyReq sampleEnvs [] 0).summary.totalRequests = 0 ∧
     (ExecuteParallel emptyReq sampleEnvs [] 0).summary.successfulRequests = 0 ∧
     (ExecuteParallel emptyReq sampleEnvs [] 0).summary.failedRequests = 0 ∧
     (ExecuteParallel emptyReq sampleEnvs [] 0).summary.timeoutRequests = 0) :=
  ⟨rfl, executeParallel_empty emptyReq sampleEnvs [] 0 rfl⟩

/-- A string with a non-empty left part stays non-empty after appending. -/
theorem append_ne_empty_left (s t : String) (h : s ≠ "") : s ++ t ≠ "" := by
  intro hc
  apply h
  have hd := congrArg String.data hc
  rw [String.data_append] at hd
  exact String.ext (List.append_eq_nil.mp hd).1

/-- Claim C3: when the outbound call returns a response (and its body is
read), `executeTask` classifies it as a success — with the raw body stored
verbatim and no error — exactly when the status is in `[200, 300)`; for any
other status it produces a failure whose error text contains both the numeric
status code and the verbatim response body. -/
theorem executeTask_status_classification (task : WebhookExecutionTask)
    (env : TaskEnv) (pb : String) (status : Nat) (body : String)
    (hm : env.marshal = Except.ok pb) (hr : env.mkRequest = Except.ok ())
    (ho : env.outbound = OutboundOutcome.gotResponse status body) :
    ((executeTask task env).success = true ∧
     (executeTask task env).response = some body ∧
     (executeTask task env).error = none
       ↔ 200 ≤ status ∧ status < 300) ∧
    (¬(200 ≤ status ∧ status < 300) →
      (executeTask task env).success = false ∧
      (executeTask task env).error =
        some ("webhook returned status " ++ toString status ++ ": " ++ body) ∧
      (toString status).data <:+:
        ("webhook returned status " ++ toString status ++ ": " ++ body).data ∧
      body.data <:+:
        ("webhook returned status " ++ toString status ++ ": " ++ body).data) := by
  have hexec : executeTask task env =
      if 200 ≤ status ∧ status < 300 then
        { zeroExecutionResult with
          index := task.index, success := true, response := some body,
          duration := env.elapsedMs }
      else
        { zeroExecutionResult with
          index := task.index,
          error := some ("webhook returned status " ++ toString status ++ ": " ++ body),
          duration := env.elapsedMs } := by
    unfold executeTask
    rw [hm, hr, ho]
  rw [hexec]
  by_cases hst : 200 ≤ status ∧ status < 300
  · rw [if_pos hst]
    exact ⟨by simp [hst, zeroExecutionResult], fun hc => absurd hst hc⟩
  · rw [if_neg hst]
    refine ⟨by simp [hst, zeroExecutionResult], fun _ => ⟨rfl, rfl, ?_, ?_⟩⟩
    · exact ⟨"webhook returned status ".data, (": " ++ body).data,
        by simp [String.data_append, List.append_assoc]⟩
    · exact ⟨("webhook returned status " ++ toString status ++ ": ").data, [],
        by simp [String.data_append, List.append_assoc]⟩

/-- Witness for C3 at a concrete 404 response: failure, with an error text
carrying the status code and the body. -/
theorem executeTask_status_classification_witness :
    ¬(200 ≤ 404 ∧ 404 < 300) ∧
    ((executeTask (mkTask sampleReq 1 ([] : Payload)) sampleEnv404).success = false ∧
     (executeTask (mkTask sampleReq 1 ([] : Payload)) sampleEnv404).error =
       some ("webhook returned status " ++ toString 404 ++ ": " ++ "not found") ∧
     (toString 404).data <:+:
       ("webhook returned status " ++ toString 404 ++ ": " ++ "not found").data ∧
     "not found".data <:+:
       ("webhook returned status " ++ toString 404 ++ ": " ++ "not found").data) :=
  ⟨by decide,
    (executeTask_status_classification (mkTask sampleReq 1 ([] : Payload))
      sampleEnv404 "pb" 404 "not found" rfl rfl rfl).2 (by decide)⟩

/-- Claim C4: `executeTask` marks a result as timed out exactly when the
outbound call failed with the task context's deadline exceeded; marshal
failures, request-construction failures and other transport failures produce
a plain failure without the timeout mark. -/
theorem executeTask_timeout_iff (task : WebhookExecutionTask) (env : TaskEnv) :
    ((executeTask task env).isTimeout = true ↔
      (∃ pb, env.marshal = Except.ok pb) ∧ env.mkRequest = Except.ok () ∧
      ∃ e, env.outbound = OutboundOutcome.doError e true) ∧
    ((∃ e, env.marshal = Except.error e) ∨ (∃ e, env.mkRequest = Except.error e) ∨
        (∃ e, env.outbound = OutboundOutcome.doError e false) →
      (executeTask task env).success = false ∧
      (executeTask task env).isTimeout = false) := by
  rcases env with ⟨m, mk, ob, el⟩
  cases m with
  | error e => simp [executeTask, zeroExecutionResult]
  | ok pb =>
    cases mk with
    | error e => simp [executeTask, zeroExecutionResult]
    | ok u =>
      cases u
      cases ob with
      | doError e dl =>
          cases dl <;> simp [executeTask, zeroExecutionResult]
      | bodyReadError s e => simp [executeTask, zeroExecutionResult]
      | gotResponse s b =>
          by_cases hst : 200 ≤ s ∧ s < 300 <;>
            simp [executeTask, zeroExecutionResult, hst]

/-- Witness for C4's failure clause at a concrete transport failure that is
not a deadline expiry. -/
theorem executeTask_timeout_iff_witness :
    (∃ e, ({ marshal := Except.ok "pb", mkRequest := Except.ok (),
             outbound := OutboundOutcome.doError "connection refused" false,
             elapsedMs := 2 } : TaskEnv).outbound
        = OutboundOutcome.doError e false) ∧
    ((executeTask (mkTask sampleReq 0 ([] : Payload))
        { marshal := Except.ok "pb", mkRequest := Except.ok (),
          outbound := OutboundOutcome.doError "connection refused" false,
          elapsedMs := 2 }).success = false ∧
     (executeTask (mkTask sampleReq 0 ([] : Payload))
        { marshal := Except.ok "pb", mkRequest := Except.ok (),
          outbound := OutboundOutcome.doError "connection refused" false,
          elapsedMs := 2 }).isTimeout = false) :=
  ⟨⟨"connection refused", rfl⟩,
    (executeTask_timeout_iff (mkTask sampleReq 0 ([] : Payload))
      { marshal := Except.ok "pb", mkRequest := Except.ok (),
        outbound := OutboundOutcome.doError "connection refused" false,
        elapsedMs := 2 }).2
      (Or.inr (Or.inr ⟨"connection refused", rfl⟩))⟩

/-- Claim C9: when the outbound call returns a 2xx status but reading the
response body fails, `executeTask` produces a plain failure (not a success
and not a timeout), with an error text about the body read. -/
theorem executeTask_bodyRead_failure (task : WebhookExecutionTask)
    (env : TaskEnv) (pb : String) (status : Nat) (e : String)
    (hm : env.marshal = Except.ok pb) (hr : env.mkRequest = Except.ok ())
    (ho : env.outbound = OutboundOutcome.bodyReadError status e)
    (_hs : 200 ≤ status ∧ status < 300) :
    (executeTask task env).success = false ∧
    (executeTask task env).error = some ("failed to read response body: " ++ e) ∧
    (executeTask task env).isTimeout = false := by
  have hexec : executeTask task env =
      { zeroExecutionResult with
        index := task.index,
        error := some ("failed to read response body: " ++ e),
        duration := env.elapsedMs } := by
    unfold executeTask
    rw [hm, hr, ho]
  rw [hexec]
  exact ⟨rfl, rfl, rfl⟩

/-- Witness for C9 at a concrete 200 response whose body read fails. -/
theorem executeTask_bodyRead_failure_witness :
    (200 ≤ 200 ∧ 200 < 300) ∧
    ((executeTask (mkTask sampleReq 0 ([] : Payload)) sampleEnvReadFail).success = false ∧
     (executeTask (mkTask sampleReq 0 ([] : Payload)) sampleEnvReadFail).error =
       some ("failed to read response body: " ++ "unexpected EOF") ∧
     (executeTask (mkTask sampleReq 0 ([] : Payload)) sampleEnvReadFail).isTimeout = false) :=
  ⟨by decide,
    executeTask_bodyRead_failure (mkTask sampleReq 0 ([] : Payload))
      sampleEnvReadFail "pb" 200 "unexpected EOF" rfl rfl rfl (by decide)⟩

/-- Claim C7: the outbound request carries the auth value verbatim as an
`Authorization` header when it is non-empty, and no `Authorization` header at
all (not an empty-string header) when it is empty. -/
theorem taskRequestHeaders_auth (task : WebhookExecutionTask) :
    getHeader (taskRequestHeaders task) "Authorization" =
      (if task.authHeader = "" then none else some task.authHeader) := by
  unfold taskRequestHeaders getHeader setHeader
  by_cases h : task.authHeader = ""
  · simp [h]
  · simp [h, List.find?]

/-- Claim C5 counterexample: a request supplying timeout 3601 is rejected by
the boundary with a 400 validation error — it is not clamped to the range and
passed on, so no request with this timeout ever reaches the core. -/
theorem handlerExecute_no_clamp_counterexample :
    handlerExecute true oversizedTimeoutReq = Except.error (400, "validation failed") := by
  rfl

/-- Claim C5 (amended): the boundary defaults the timeout to 60 when it is
unset/zero and rejects (rather than clamps) any supplied timeout outside
`[1, 3600]` with a validation error, so every request that reaches the core
carries a timeout in `[1, 3600]` — the defaulted value for an unset timeout,
the supplied value otherwise. -/
theorem handlerExecute_timeout_range (urlOk : Bool)
    (req req' : ParallelExecuteRequest)
    (h : handlerExecute urlOk req = Except.ok req') :
    (1 ≤ req'.timeout ∧ req'.timeout ≤ 3600) ∧
    (req.timeout = 0 → req'.timeout = 60) ∧
    (req.timeout ≠ 0 → req'.timeout = req.timeout) := by
  unfold handlerExecute at h
  by_cases hv : validateStruct urlOk (applyDefaultTimeout req) = false
  · rw [if_pos hv] at h
    cases h
  · rw [if_neg hv] at h
    by_cases hz : (applyDefaultTimeout req).payloads.length = 0
    · rw [if_pos hz] at h
      cases h
    · rw [if_neg hz] at h
      cases h
      have hv' : validateStruct urlOk (applyDefaultTimeout req) = true :=
        Bool.not_eq_false _ ▸ Bool.of_not_eq_false hv
      have hrange : (1 : Int) ≤ (applyDefaultTimeout req).timeout ∧
          (applyDefaultTimeout req).timeout ≤ 3600 := by
        unfold validateStruct at hv'
        simp only [Bool.and_eq_true, decide_eq_true_eq] at hv'
        exact hv'.2
      refine ⟨hrange, ?_, ?_⟩
      · intro h0
        unfold applyDefaultTimeout
        rw [if_pos h0]
      · intro h0
        unfold applyDefaultTimeout
        rw [if_neg h0]

/-- Witness for C5's amended claim at a request whose timeout was unset: the
boundary passes it to the core with timeout 60. -/
theorem handlerExecute_timeout_range_witness :
    handlerExecute true unsetTimeoutReq = Except.ok defaultedTimeoutReq ∧
    ((1 ≤ defaultedTimeoutReq.timeout ∧ defaultedTimeoutReq.timeout ≤ 3600) ∧
     (unsetTimeoutReq.timeout = 0 → defaultedTimeoutReq.timeout = 60) ∧
     (unsetTimeoutReq.timeout ≠ 0 →
       defaultedTimeoutReq.timeout = unsetTimeoutReq.timeout)) :=
  ⟨rfl, handlerExecute_timeout_range true unsetTimeoutReq defaultedTimeoutReq rfl⟩

/-- On every failure path, `executeTask` records a non-empty error text. -/
theorem executeTask_error_of_failure (task : WebhookExecutionTask) (env : TaskEnv)
    (h : (executeTask task env).success = false) :
    ∃ e, (executeTask task env).error = some e ∧ e ≠ "" := by
  rcases env with ⟨m, mk, ob, el⟩
  cases m with
  | error e =>
      exact ⟨_, rfl, append_ne_empty_left _ _ (by decide)⟩
  | ok pb =>
    cases mk with
    | error e =>
        exact ⟨_, rfl, append_ne_empty_left _ _ (by decide)⟩
    | ok u =>
      cases u
      cases ob with
      | doError e dl =>
          cases dl with
          | false => exact ⟨_, rfl, append_ne_empty_left _ _ (by decide)⟩
          | true =>
              exact ⟨_, rfl,
                append_ne_empty_left ("request timeout after " ++ toString task.timeoutSec)
                  " seconds"
                  (append_ne_empty_left "request timeout after " (toString task.timeoutSec)
                    (by decide))⟩
      | bodyReadError s e =>
          exact ⟨_, rfl, append_ne_empty_left _ _ (by decide)⟩
      | gotResponse s b =>
          have hexec : executeTask task ⟨Except.ok pb, Except.ok (),
              OutboundOutcome.gotResponse s b, el⟩ =
              if 200 ≤ s ∧ s < 300 then
                { zeroExecutionResult with
                  index := task.index, success := true, response := some b,
                  duration := el }
              else
                { zeroExecutionResult with
                  index := task.index,
                  error := some ("webhook returned status " ++ toString s ++ ": " ++ b),
                  duration := el } := rfl
          rw [hexec] at h ⊢
          by_cases hst : 200 ≤ s ∧ s < 300
          · rw [if_pos hst] at h
            simp at h
          · rw [if_neg hst]
            exact ⟨_, rfl,
              append_ne_empty_left ("webhook returned status " ++ toString s ++ ": ") b
                (append_ne_empty_left ("webhook returned status " ++ toString s) ": "
                  (append_ne_empty_left "webhook returned status " (toString s)
                    (by decide)))⟩

/-- Claim C10: every non-success entry of the response carries a non-empty
error string, and that string is exactly `"timeout"` for a timed-out task
(the executor's detailed timeout message is discarded), the recorded error's
text for an ordinary failure, and the literal `"unknown error"` when no error
was recorded. -/
theorem executeParallel_error_nonempty (req : ParallelExecuteRequest)
    (env : Nat → TaskEnv) (order : List Nat) (dur : Int) (i : Nat)
    (hperm : order.Perm (List.range req.payloads.length))
    (hi : i < req.payloads.length)
    (hfail : ((ExecuteParallel req env order dur).results.getD i
        zeroWebhookResult).success = false) :
    ((ExecuteParallel req env order dur).results.getD i zeroWebhookResult).error ≠ "" ∧
    ((ExecuteParallel req env order dur).results.getD i zeroWebhookResult).error =
      (if (executeTask (mkTask req i (req.payloads.getD i ([] : Payload))) (env i)).isTimeout
       then "timeout"
       else
         match (executeTask (mkTask req i (req.payloads.getD i ([] : Payload))) (env i)).error with
         | some e => e
         | none => "unknown error") := by
  have hget : (ExecuteParallel req env order dur).results.getD i zeroWebhookResult
      = toWebhookResult i
          (executeTask (mkTask req i (req.payloads.getD i ([] : Payload))) (env i)) := by
    rw [List.getD_eq_getElem?_getD,
      executeParallel_results_getElem? req env order dur hperm i hi]
    rfl
  rw [hget] at hfail ⊢
  have hsucc : (executeTask (mkTask req i (req.payloads.getD i ([] : Payload)))
      (env i)).success = false := hfail
  obtain ⟨e, he, hne⟩ := executeTask_error_of_failure _ _ hsucc
  have herr : (toWebhookResult i
      (executeTask (mkTask req i (req.payloads.getD i ([] : Payload))) (env i))).error =
      (if (executeTask (mkTask req i (req.payloads.getD i ([] : Payload))) (env i)).isTimeout
       then "timeout"
       else
         match (executeTask (mkTask req i (req.payloads.getD i ([] : Payload))) (env i)).error with
         | some e => e
         | none => "unknown error") := by
    have herr0 : (toWebhookResult i
        (executeTask (mkTask req i (req.payloads.getD i ([] : Payload))) (env i))).error =
        if (executeTask (mkTask req i (req.payloads.getD i ([] : Payload)))
            (env i)).success = true then ""
        else if (executeTask (mkTask req i (req.payloads.getD i ([] : Payload)))
            (env i)).isTimeout = true then "timeout"
        else
          match (executeTask (mkTask req i (req.payloads.getD i ([] : Payload)))
              (env i)).error with
          | some e => e
          | none => "unknown error" := rfl
    rw [herr0, hsucc, if_neg Bool.false_ne_true]
  rw [herr]
  refine ⟨?_, rfl⟩
  cases hT : (executeTask (mkTask req i (req.payloads.getD i ([] : Payload)))
      (env i)).isTimeout
  · rw [if_neg Bool.false_ne_true, he]
    exact hne
  · rw [if_pos rfl]
    decide

/-- Witness for C10: with completion order `[1, 0]`, the timed-out task 1
yields the literal error `"timeout"`, a non-empty string. -/
theorem executeParallel_error_nonempty_witness :
    List.Perm [1, 0] (List.range sampleReq.payloads.length) ∧
    1 < sampleReq.payloads.length ∧
    ((ExecuteParallel sampleReq sampleEnvs [1, 0] 5).results.getD 1
        zeroWebhookResult).success = false ∧
    (((ExecuteParallel sampleReq sampleEnvs [1, 0] 5).results.getD 1
        zeroWebhookResult).error ≠ "" ∧
     ((ExecuteParallel sampleReq sampleEnvs [1, 0] 5).results.getD 1
        zeroWebhookResult).error =
       (if (executeTask (mkTask sampleReq 1 (sampleReq.payloads.getD 1 ([] : Payload)))
             (sampleEnvs 1)).isTimeout
        then "timeout"
        else
          match (executeTask (mkTask sampleReq 1 (sampleReq.payloads.getD 1 ([] : Payload)))
              (sampleEnvs 1)).error with
          | some e => e
          | none => "unknown error")) :=
  ⟨by decide, by decide, by rfl,
    executeParallel_error_nonempty sampleReq sampleEnvs [1, 0] 5 1
      (by decide) (by decide) (by rfl)⟩

end NParallels
